import Mathlib

/-!
Verification of the traffic-comparator report engine
(`traffic_comparator/reports.py`) against its specification.

The embedding is shallow: Python objects become Lean structures, Python
numbers (ints and floats) become exact rationals, mutating methods become
pure state-transformers returning the new object state together with the
text they write, and operations that can raise become `Option`-valued.
-/

/-- A parsed-JSON value (the "structured" form a response body can take).
Numbers are modelled as integers; objects keep their key insertion order,
exactly as a Python `dict` preserves insertion order. -/
inductive JValue where
  | jnull : JValue
  | jbool : Bool → JValue
  | jnum : Int → JValue
  | jstr : String → JValue
  | jarr : List JValue → JValue
  | jobj : List (String × JValue) → JValue


/-- Modelled from the spec: the body field of a Response Record
(`traffic_comparator/data.py` is not part of the visible source).
"body: either a structured value ... or a raw string, or empty/absent
(sentinel: empty string)"; Python also allows `None`, which
`reports.py` tests for with `body is None`. -/
inductive Body where
  | bnone : Body
  | bstr : String → Body
  | bstructured : JValue → Body


/-- Modelled from the spec: one observed HTTP response
("Response Record": status code, headers, body, latency).  Headers are
only ever string-rendered by the engine, so they are modelled by their
rendered string form; latency is a rational ("numeric duration; may be
zero or negative"). -/
structure Response where
  statuscode : Int
  headers : String
  body : Body
  latency : ℚ


/-- Modelled from the spec: a Response Comparison "wraps a primary/shadow
Response Record pair and exposes an identity predicate".  The predicate
`is_identical()` is an opaque external collaborator, so its boolean value
is carried as data. -/
structure ResponseComparison where
  primary_response : Response
  shadow_response : Response
  is_identical : Bool


/-- Modelled from the spec: an "Unmatched Request" is "an opaque record
representing a primary-side request with no shadow counterpart; the engine
only needs its count, not its content". -/
structure RequestResponsePair where
  tag : Nat


/-- The cached state of `BasicCorrectnessReport` (`reports.py`).  The two
input lists and the `_computed` flag come from `BaseReport.__init__`; the
remaining fields are the attributes `compute` assigns (defaulted to `0`
before the first `compute`, a state the Python code never reads). -/
structure BasicCorrectnessReport where
  response_comparisons : List ResponseComparison
  uncompared_requests : List RequestResponsePair
  computed : Bool := false
  total_comparisons : Nat := 0
  number_identical : Nat := 0
  statuses_identical : Nat := 0
  percent_matching : ℚ := 0
  percent_statuses_matching : ℚ := 0
  number_skipped : Nat := 0


/-- `BaseReport.__init__`: store the two borrowed input sequences and
clear the computed flag. -/
def BasicCorrectnessReport.init (comps : List ResponseComparison)
    (uncompared : List RequestResponsePair) : BasicCorrectnessReport :=
  { response_comparisons := comps, uncompared_requests := uncompared }

/-- `BasicCorrectnessReport.compute` (`reports.py` lines 38-50): counts,
exact ratios with the explicit zero-divisor fallback, and the skipped
count.  `sum([bool ...])` is a count, hence `countP`. -/
def BasicCorrectnessReport.compute (r : BasicCorrectnessReport) :
    BasicCorrectnessReport :=
  let total := r.response_comparisons.length
  let ident := r.response_comparisons.countP (fun c => c.is_identical)
  let stat := r.response_comparisons.countP
    (fun c => c.primary_response.statuscode == c.shadow_response.statuscode)
  { r with
    total_comparisons := total
    number_identical := ident
    statuses_identical := stat
    percent_matching := if total ≠ 0 then (ident : ℚ) / (total : ℚ) else 0
    percent_statuses_matching :=
      if total ≠ 0 then (stat : ℚ) / (total : ℚ) else 0
    number_skipped := r.uncompared_requests.length
    computed := true }

/-- Key-ordering relation used by `json.dumps(..., sort_keys=True)`:
compare key-value pairs by their key. -/
def keyLE (p q : String × JValue) : Prop := p.1 ≤ q.1

instance : DecidableRel keyLE := fun p q =>
  inferInstanceAs (Decidable (p.1 ≤ q.1))

instance : IsTotal (String × JValue) keyLE :=
  ⟨fun p q => le_total p.1 q.1⟩

instance : IsTrans (String × JValue) keyLE :=
  ⟨fun _ _ _ h1 h2 => le_trans h1 h2⟩

mutual
/-- The key-canonical form of a JSON value: every object's key-value list
is sorted by key, recursively.  This is the `sort_keys=True` part of
`json.dumps(body, sort_keys=True, indent=4)` in
`BasicCorrectnessReport.export`, factored out of the serializer. -/
def JValue.canon : JValue → JValue
  | .jnull => .jnull
  | .jbool b => .jbool b
  | .jnum n => .jnum n
  | .jstr s => .jstr s
  | .jarr xs => .jarr (JValue.canonList xs)
  | .jobj kvs => .jobj (List.insertionSort keyLE (JValue.canonKVs kvs))

/-- Canonicalize every element of an array. -/
def JValue.canonList : List JValue → List JValue
  | [] => []
  | x :: xs => x.canon :: JValue.canonList xs

/-- Canonicalize the value of every key-value pair (keys unchanged). -/
def JValue.canonKVs : List (String × JValue) → List (String × JValue)
  | [] => []
  | (k, v) :: kvs => (k, v.canon) :: JValue.canonKVs kvs
end

/-- A run of `n` spaces, as produced by `json.dumps(..., indent=4)`. -/
def pad (n : Nat) : String := String.mk (List.replicate n ' ')

/-- JSON string quoting as performed by `json.dumps`. -/
def jsonQuote (s : String) : String :=
  "\"" ++ String.join (s.data.map (fun c =>
    if c = '"' then "\\\""
    else if c = '\\' then "\\\\"
    else if c = '\n' then "\\n"
    else if c = '\t' then "\\t"
    else if c = '\r' then "\\r"
    else String.mk [c])) ++ "\""

/-- Append a comma to the last line of a rendered item, as `json.dumps`
separates the items of an array or object. -/
def commaLast : List String → List String
  | [] => []
  | [a] => [a ++ ","]
  | a :: rest => a :: commaLast rest

/-- Prefix the first line of a rendered value (with the item's
indentation, or with `"key": `). -/
def prefixFirst (p : String) : List String → List String
  | [] => [p]
  | a :: rest => (p ++ a) :: rest

mutual
/-- The line-by-line rendering of `json.dumps(v, indent=4)` (key sorting
is `JValue.canon`, applied before rendering): scalars are one line,
arrays and objects open a bracket, indent their items by four more
spaces, comma-separate them, and close the bracket at the enclosing
indentation.  Producing the lines directly fuses the `.splitlines()`
call of `BasicCorrectnessReport.export`. -/
def JValue.renderLines (ind : Nat) : JValue → List String
  | .jnull => ["null"]
  | .jbool b => [if b then "true" else "false"]
  | .jnum n => [toString n]
  | .jstr s => [jsonQuote s]
  | .jarr [] => ["[]"]
  | .jarr (x :: xs) =>
    "[" :: JValue.renderArrItems (ind + 4) (x :: xs) ++ [pad ind ++ "]"]
  | .jobj [] => ["\x7b\x7d"]
  | .jobj (kv :: kvs) =>
    "\x7b" :: JValue.renderObjItems (ind + 4) (kv :: kvs) ++ [pad ind ++ "\x7d"]

/-- Render the comma-separated items of an array at indentation `ind`. -/
def JValue.renderArrItems (ind : Nat) : List JValue → List String
  | [] => []
  | [x] => prefixFirst (pad ind) (x.renderLines ind)
  | x :: y :: ys =>
    commaLast (prefixFirst (pad ind) (x.renderLines ind)) ++
      JValue.renderArrItems ind (y :: ys)

/-- Render the comma-separated items of an object at indentation `ind`. -/
def JValue.renderObjItems (ind : Nat) : List (String × JValue) → List String
  | [] => []
  | [(k, v)] => prefixFirst (pad ind ++ jsonQuote k ++ ": ") (v.renderLines ind)
  | (k, v) :: kv2 :: kvs =>
    commaLast (prefixFirst (pad ind ++ jsonQuote k ++ ": ")
        (v.renderLines ind)) ++
      JValue.renderObjItems ind (kv2 :: kvs)
end

/-- `json.dumps(body, sort_keys=True, indent=4).splitlines()`
(`reports.py` lines 97 and 101): key-canonicalize, then render line by
line at top-level indentation. -/
def jsonDumpsLines (j : JValue) : List String :=
  (j.canon).renderLines 0

mutual
/-- Python `str()` of a parsed-JSON value (i.e. of nested dicts / lists /
scalars), used by the `{...!s:.80}` format in
`BasicCorrectnessReport.export`. -/
def JValue.pyRepr : JValue → String
  | .jnull => "None"
  | .jbool b => if b then "True" else "False"
  | .jnum n => toString n
  | .jstr s => "\x27" ++ s ++ "\x27"
  | .jarr xs => "[" ++ JValue.pyReprList xs ++ "]"
  | .jobj kvs => "\x7b" ++ JValue.pyReprKVs kvs ++ "\x7d"

/-- Comma-separated Python renderings of a list's elements. -/
def JValue.pyReprList : List JValue → String
  | [] => ""
  | [x] => x.pyRepr
  | x :: y :: ys => x.pyRepr ++ ", " ++ JValue.pyReprList (y :: ys)

/-- Comma-separated Python renderings of a dict's items. -/
def JValue.pyReprKVs : List (String × JValue) → String
  | [] => ""
  | [(k, v)] => "\x27" ++ k ++ "\x27: " ++ v.pyRepr
  | (k, v) :: kv2 :: kvs =>
    "\x27" ++ k ++ "\x27: " ++ v.pyRepr ++ ", " ++ JValue.pyReprKVs (kv2 :: kvs)
end

/-- Python `str(body)` (the `!s` conversion). -/
def Body.pyStr : Body → String
  | .bnone => "None"
  | .bstr s => s
  | .bstructured j => j.pyRepr

/-- Python `f"{type(body)}"`: the printed type of the body object. -/
def Body.typeTag : Body → String
  | .bnone => "<class \x27NoneType\x27>"
  | .bstr _ => "<class \x27str\x27>"
  | .bstructured (.jobj _) => "<class \x27dict\x27>"
  | .bstructured (.jarr _) => "<class \x27list\x27>"
  | .bstructured (.jstr _) => "<class \x27str\x27>"
  | .bstructured (.jnum _) => "<class \x27int\x27>"
  | .bstructured (.jbool _) => "<class \x27bool\x27>"
  | .bstructured .jnull => "<class \x27NoneType\x27>"

/-- `isinstance(body, str)`. -/
def Body.isStr : Body → Bool
  | .bstr _ => true
  | _ => false

/-- `body is None`. -/
def Body.isNone : Body → Bool
  | .bnone => true
  | _ => false

/-- `body == ""` (only a string body can equal the empty string). -/
def Body.isEmptyStr : Body → Bool
  | .bstr s => s = ""
  | _ => false

/-- Python's string-format precision (`f"{x!s:.80}"` keeps the first `n`
characters of the string form). -/
def strTrunc (n : Nat) (s : String) : String := String.mk (s.data.take n)

/-- The diff-input lines built for one side of a comparison
(`reports.py` lines 83-101).  `self` is the response being rendered and
`other` the opposite side: the branch between the truncated single-line
body and the full key-sorted serialization looks at BOTH bodies. -/
def diffInputLines (self other : Response) : List String :=
  if self.body.isStr || other.body.isStr ||
      self.body.isNone || other.body.isNone then
    ["Status code: " ++ toString self.statuscode,
     "Headers: " ++ self.headers,
     "Body:" ++ self.body.typeTag ++ " " ++ strTrunc 80 self.body.pyStr]
  else
    ["Status code: " ++ toString self.statuscode,
     "Headers: " ++ self.headers,
     "Body:"] ++
    (match self.body with
     | .bstructured j => jsonDumpsLines j
     | _ => [])

/-- A line-oriented two-sequence differ with `difflib.Differ`'s output
convention (`"  "` common, `"- "` only-in-primary, `"+ "` only-in-shadow).
`difflib` is an external standard-library collaborator; the spec fixes
only its interface and prefix convention, so a simple correct differ
stands in for it (no claim depends on which diff is chosen). -/
def differCompare : List String → List String → List String
  | [], bs => bs.map ("+ " ++ ·)
  | a :: as, [] => ("- " ++ a) :: differCompare as []
  | a :: as, b :: bs =>
    if a = b then ("  " ++ a) :: differCompare as bs
    else ("- " ++ a) :: ("+ " ++ b) :: differCompare as bs

/-- Zero-padded fixed-point rendering of a rational with `d` places after
the point, modelling Python's `%.1f` / `:.2f` float formats (rounding to
nearest). -/
def qToFixed (d : Nat) (q : ℚ) : String :=
  let m : Int := round (q * (10 : ℚ) ^ d)
  let sign := if m < 0 then "-" else ""
  let a := m.natAbs
  let ip := a / 10 ^ d
  let fp := a % 10 ^ d
  let fpStr := toString fp
  let fpPadded := String.mk (List.replicate (d - fpStr.length) '0') ++ fpStr
  sign ++ toString ip ++ (if d = 0 then "" else "." ++ fpPadded)

/-- Python's `:.2%` format: value times 100, two decimal places, percent
sign. -/
def formatPercent (q : ℚ) : String := qToFixed 2 (q * 100) ++ "%"

/-- The summary text of `BasicCorrectnessReport.__str__` (lines 56-61),
rendered from already-computed fields. -/
def BasicCorrectnessReport.strText (r : BasicCorrectnessReport) : String :=
  "\n    " ++ toString r.total_comparisons ++ " responses were compared.\n    " ++
  toString r.number_identical ++ " were identical, for a match rate of " ++
  formatPercent r.percent_matching ++
  "\n    The status codes matched in " ++
  formatPercent r.percent_statuses_matching ++
  " of responses.\n    " ++ toString r.number_skipped ++
  " requests from the primary cluster were not matched with a request from" ++
  " the shadow cluster.\n    "

/-- `BasicCorrectnessReport.__str__` (lines 52-61): compute first when the
cached state is missing (this mutates the object), then render.  The
result pairs the post-call object state with the returned text. -/
def BasicCorrectnessReport.str (r : BasicCorrectnessReport) :
    BasicCorrectnessReport × String :=
  let r := if r.computed then r else r.compute
  (r, r.strText)

/-- The separator written before each diff block: `'=' * 40`. -/
def sep40 : String := String.mk (List.replicate 40 '=')

/-- Should `BasicCorrectnessReport.export` skip this comparison's diff
(line 78): identical, or an empty-string body on either side. -/
def skipDiff (c : ResponseComparison) : Bool :=
  c.is_identical || c.primary_response.body.isEmptyStr ||
    c.shadow_response.body.isEmptyStr

/-- The diff text written for one comparison:
`"\n".join(d.compare(primary_response_lines, shadow_response_lines))`. -/
def diffText (c : ResponseComparison) : String :=
  String.intercalate "\n"
    (differCompare (diffInputLines c.primary_response c.shadow_response)
      (diffInputLines c.shadow_response c.primary_response))

/-- The body of the export loop of `BasicCorrectnessReport.export`
(lines 77-105), as the sequence of `output_file.write` payloads: each
non-skipped comparison writes the separator, a newline, its diff text,
and a newline; skipped comparisons write nothing (`continue`). -/
def exportLoop : List ResponseComparison → List String
  | [] => []
  | c :: rest =>
    if skipDiff c then exportLoop rest
    else sep40 :: "\n" :: diffText c :: "\n" :: exportLoop rest

/-- `BasicCorrectnessReport.export` (lines 63-105): computes if needed,
writes the summary (`str(self)`) and a newline, then the diff blocks.
Returned as the post-call state and the list of write payloads. -/
def BasicCorrectnessReport.export (r : BasicCorrectnessReport) :
    BasicCorrectnessReport × List String :=
  let r := if r.computed then r else r.compute
  (r, r.strText :: "\n" :: exportLoop r.response_comparisons)

/-- The cached state of `PerformanceReport` (`reports.py`): the borrowed
inputs, the computed flag, and the two filtered latency lists `compute`
assigns. -/
structure PerformanceReport where
  response_comparisons : List ResponseComparison
  uncompared_requests : List RequestResponsePair
  computed : Bool := false
  primary_latencies : List ℚ := []
  shadow_latencies : List ℚ := []

/-- `BaseReport.__init__` for the performance report. -/
def PerformanceReport.init (comps : List ResponseComparison)
    (uncompared : List RequestResponsePair) : PerformanceReport :=
  { response_comparisons := comps, uncompared_requests := uncompared }

/-- `PerformanceReport.compute` (lines 112-121): one pass over the
comparisons appending each side's latency exactly when it is strictly
positive — written as the equivalent map-then-filter. -/
def PerformanceReport.compute (r : PerformanceReport) : PerformanceReport :=
  { r with
    primary_latencies :=
      (r.response_comparisons.map (fun c => c.primary_response.latency)).filter
        (fun l => 0 < l)
    shadow_latencies :=
      (r.response_comparisons.map (fun c => c.shadow_response.latency)).filter
        (fun l => 0 < l)
    computed := true }

/-- `np.percentile(data, q)` with NumPy's default linear-interpolation
method: on the sorted sample `s` of size `n`, the value at fractional
rank `q/100 * (n-1)`, interpolating linearly between the neighbouring
order statistics.  NumPy raises on an empty sample, modelled as `none`. -/
def npPercentile (data : List ℚ) (q : ℚ) : Option ℚ :=
  match data.insertionSort (· ≤ ·) with
  | [] => none
  | x :: xs =>
    let srt := x :: xs
    let n := srt.length
    let pos : ℚ := q / 100 * ((n : ℚ) - 1)
    let i : Nat := (⌊pos⌋).toNat
    let frac : ℚ := pos - (i : ℚ)
    let lo := srt.getD i 0
    let hi := srt.getD (i + 1) lo
    some (lo + frac * (hi - lo))

/-- `np.average(data)`: the arithmetic mean.  On an empty sample NumPy
produces no number (NaN under a warning), modelled as `none`. -/
def npAverage (data : List ℚ) : Option ℚ :=
  match data with
  | [] => none
  | _ => some (data.sum / (data.length : ℚ))

/-- The summary text of `PerformanceReport.__str__` (lines 130-142) for
one cluster, given its already-extracted statistics. -/
def perfClusterText (name : String) (p99 p90 p50 avg : ℚ) : String :=
  "==Stats for " ++ name ++ " cluster==\n    99th percentile = " ++
  qToFixed 1 p99 ++ "\n    90th percentile = " ++ qToFixed 1 p90 ++
  "\n    50th percentile = " ++ qToFixed 1 p50 ++
  "\n    Average Latency = " ++ qToFixed 1 avg ++ "\n    "

/-- `PerformanceReport.__str__` (lines 123-142): computes if needed, then
formats percentiles and averages of both filtered latency lists.  When a
list is empty the NumPy calls fail, so no text is produced (`none`): the
exception propagates to the caller. -/
def PerformanceReport.str (r : PerformanceReport) :
    PerformanceReport × Option String :=
  let r := if r.computed then r else r.compute
  (r,
    match npPercentile r.primary_latencies 99, npPercentile r.primary_latencies 90,
        npPercentile r.primary_latencies 50, npAverage r.primary_latencies,
        npPercentile r.shadow_latencies 99, npPercentile r.shadow_latencies 90,
        npPercentile r.shadow_latencies 50, npAverage r.shadow_latencies with
    | some p99, some p90, some p50, some pavg,
      some s99, some s90, some s50, some savg =>
      some ("\n            " ++ perfClusterText "primary" p99 p90 p50 pavg ++
        "\n            " ++ perfClusterText "shadow" s99 s90 s50 savg)
    | _, _, _, _, _, _, _, _ => none)

/-- `PerformanceReport.export` (lines 144-158): computes if needed, writes
`str(self)` (whose failure on an empty sample propagates, hence the
`Option`), then both latency lists, space-separated. -/
def PerformanceReport.export (r : PerformanceReport) :
    PerformanceReport × Option (List String) :=
  let r := if r.computed then r else r.compute
  (r,
    match (PerformanceReport.str r).2 with
    | none => none
    | some text =>
      some ([text, "\n", "All Primary Cluster Latencies: \n"] ++
        r.primary_latencies.map (fun l => toString l ++ " ") ++
        ["\n", "All Shadow Cluster Latencies: \n"] ++
        r.shadow_latencies.map (fun l => toString l ++ " ") ++ ["\n"]))

/-- Shorthand for building concrete responses in examples. -/
def mkResp (stat : Int) (b : Body) (lat : ℚ) : Response :=
  { statuscode := stat, headers := "h", body := b, latency := lat }

/-- Shorthand for building concrete comparisons in examples. -/
def mkComp (p s : Response) (ident : Bool) : ResponseComparison :=
  { primary_response := p, shadow_response := s, is_identical := ident }

/-- Strict key order on key-value pairs. -/
def keyLT (p q : String × JValue) : Prop := p.1 < q.1

instance : IsAntisymm (String × JValue) keyLT :=
  ⟨fun _ _ h1 h2 => absurd h2 (lt_asymm h1)⟩

/-- Structural equality of JSON values up to the insertion order of object
keys: scalars must be equal, arrays must be pointwise related, and an
object's key-value list must be a permutation of the other's (witnessed by
an intermediate list `l`) with equal keys and related values, the keys
being pairwise distinct. -/
inductive KeyPerm : JValue → JValue → Prop where
  | null : KeyPerm .jnull .jnull
  | bool (b : Bool) : KeyPerm (.jbool b) (.jbool b)
  | num (n : Int) : KeyPerm (.jnum n) (.jnum n)
  | str (s : String) : KeyPerm (.jstr s) (.jstr s)
  | arr (xs ys : List JValue) (hlen : xs.length = ys.length)
      (h : ∀ (i : Nat) (h1 : i < xs.length) (h2 : i < ys.length),
        KeyPerm xs[i] ys[i]) :
      KeyPerm (.jarr xs) (.jarr ys)
  | obj (kvs1 kvs2 l : List (String × JValue))
      (hperm : l.Perm kvs2)
      (hlen : kvs1.length = l.length)
      (hkeys : ∀ (i : Nat) (h1 : i < kvs1.length) (h2 : i < l.length),
        (kvs1[i]).1 = (l[i]).1)
      (hvals : ∀ (i : Nat) (h1 : i < kvs1.length) (h2 : i < l.length),
        KeyPerm (kvs1[i]).2 (l[i]).2)
      (hnd : kvs1.Pairwise (fun p q => p.1 ≠ q.1)) :
      KeyPerm (.jobj kvs1) (.jobj kvs2)

/-- `canonList` is just `map canon`. -/
theorem canonList_eq_map (xs : List JValue) :
    JValue.canonList xs = xs.map JValue.canon := by
  induction xs with
  | nil => simp [JValue.canonList]
  | cons x xs ih => simp [JValue.canonList, ih]

/-- `canonKVs` is just `map` of `canon` over the values. -/
theorem canonKVs_eq_map (kvs : List (String × JValue)) :
    JValue.canonKVs kvs = kvs.map (fun p => (p.1, p.2.canon)) := by
  induction kvs with
  | nil => simp [JValue.canonKVs]
  | cons p kvs ih =>
    rcases p with ⟨k, v⟩
    simp [JValue.canonKVs, ih]

/-- Key-order-insensitive structural equality is invisible after key
canonicalization: the heart of the diff-stability property of
`json.dumps(..., sort_keys=True)`. -/
theorem canon_eq_of_keyPerm {j1 j2 : JValue} (h : KeyPerm j1 j2) :
    j1.canon = j2.canon := by
  induction h with
  | null => rfl
  | bool b => rfl
  | num n => rfl
  | str s => rfl
  | arr xs ys hlen h ih =>
    show JValue.canon (.jarr xs) = JValue.canon (.jarr ys)
    simp only [JValue.canon, canonList_eq_map, JValue.jarr.injEq]
    refine List.ext_getElem (by simp [hlen]) ?_
    intro i h1 h2
    simp only [List.getElem_map]
    exact ih i (by simpa using h1) (by simpa using h2)
  | obj kvs1 kvs2 l hperm hlen hkeys hvals hnd ih =>
    show JValue.canon (.jobj kvs1) = JValue.canon (.jobj kvs2)
    simp only [JValue.canon, JValue.jobj.injEq]
    have heq1 : JValue.canonKVs kvs1 = JValue.canonKVs l := by
      simp only [canonKVs_eq_map]
      refine List.ext_getElem (by simp [hlen]) ?_
      intro i h1 h2
      simp only [List.getElem_map]
      have hk := hkeys i (by simpa using h1) (by simpa using h2)
      have hv := ih i (by simpa using h1) (by simpa using h2)
      exact Prod.ext hk hv
    have hperm2 : (JValue.canonKVs kvs1).Perm (JValue.canonKVs kvs2) := by
      rw [heq1, canonKVs_eq_map, canonKVs_eq_map]
      exact hperm.map _
    have hs1 : List.Sorted keyLE (List.insertionSort keyLE (JValue.canonKVs kvs1)) :=
      List.sorted_insertionSort keyLE _
    have hs2 : List.Sorted keyLE (List.insertionSort keyLE (JValue.canonKVs kvs2)) :=
      List.sorted_insertionSort keyLE _
    have hps : (List.insertionSort keyLE (JValue.canonKVs kvs1)).Perm
        (List.insertionSort keyLE (JValue.canonKVs kvs2)) :=
      (List.perm_insertionSort keyLE _).trans
        (hperm2.trans (List.perm_insertionSort keyLE _).symm)
    have hndm : (JValue.canonKVs kvs1).Pairwise (fun p q => p.1 ≠ q.1) := by
      rw [canonKVs_eq_map]
      exact List.pairwise_map.mpr hnd
    have hnd1 : (List.insertionSort keyLE (JValue.canonKVs kvs1)).Pairwise
        (fun p q => p.1 ≠ q.1) :=
      (List.Perm.pairwise_iff (fun hne => hne.symm)
        (List.perm_insertionSort keyLE _)).mpr hndm
    have hnd2 : (List.insertionSort keyLE (JValue.canonKVs kvs2)).Pairwise
        (fun p q => p.1 ≠ q.1) :=
      (List.Perm.pairwise_iff (fun hne => hne.symm) hps).mp hnd1
    have hst1 : List.Sorted keyLT (List.insertionSort keyLE (JValue.canonKVs kvs1)) :=
      (hs1.and hnd1).imp (fun hab => lt_of_le_of_ne hab.1 hab.2)
    have hst2 : List.Sorted keyLT (List.insertionSort keyLE (JValue.canonKVs kvs2)) :=
      (hs2.and hnd2).imp (fun hab => lt_of_le_of_ne hab.1 hab.2)
    exact List.eq_of_perm_of_sorted hps hst1 hst2

/-- `KeyPerm`-related values serialize to identical line sequences. -/
theorem jsonDumpsLines_eq_of_keyPerm {j1 j2 : JValue} (h : KeyPerm j1 j2) :
    jsonDumpsLines j1 = jsonDumpsLines j2 := by
  unfold jsonDumpsLines
  rw [canon_eq_of_keyPerm h]

/-- C1: for every non-empty comparison sequence, after
`BasicCorrectnessReport.compute` the cached `percent_matching` equals
`number_identical / total_comparisons` exactly and lies in `[0, 1]`;
`percent_statuses_matching` likewise equals
`statuses_identical / total_comparisons`, where `statuses_identical`
counts the comparisons with equal primary and shadow status codes — a
count that does not depend on the `is_identical` flags. -/
theorem basicCorrectness_percentages_exact
    (comps : List ResponseComparison) (ur : List RequestResponsePair)
    (hne : comps ≠ []) :
    (((BasicCorrectnessReport.init comps ur).compute).percent_matching =
      ((((BasicCorrectnessReport.init comps ur).compute).number_identical : ℚ) /
        ((((BasicCorrectnessReport.init comps ur).compute).total_comparisons : ℚ)))) ∧
    0 ≤ ((BasicCorrectnessReport.init comps ur).compute).percent_matching ∧
    ((BasicCorrectnessReport.init comps ur).compute).percent_matching ≤ 1 ∧
    (((BasicCorrectnessReport.init comps ur).compute).percent_statuses_matching =
      ((((BasicCorrectnessReport.init comps ur).compute).statuses_identical : ℚ) /
        ((((BasicCorrectnessReport.init comps ur).compute).total_comparisons : ℚ)))) ∧
    ((BasicCorrectnessReport.init comps ur).compute).statuses_identical =
      comps.countP (fun c =>
        c.primary_response.statuscode == c.shadow_response.statuscode) ∧
    (∀ g : ResponseComparison → Bool,
      ((BasicCorrectnessReport.init
          (comps.map (fun c => { c with is_identical := g c })) ur).compute).statuses_identical =
        ((BasicCorrectnessReport.init comps ur).compute).statuses_identical) := by
  have htot : comps.length ≠ 0 := by
    simpa [List.length_eq_zero] using hne
  have hpos : (0 : ℚ) < (comps.length : ℚ) := by
    exact_mod_cast Nat.pos_of_ne_zero htot
  refine ⟨?_, ?_, ?_, ?_, ?_, ?_⟩
  · simp [BasicCorrectnessReport.init, BasicCorrectnessReport.compute, htot]
  · simp only [BasicCorrectnessReport.init, BasicCorrectnessReport.compute,
      if_pos htot]
    positivity
  · simp only [BasicCorrectnessReport.init, BasicCorrectnessReport.compute,
      ne_eq, htot, not_false_iff, if_pos]
    rw [div_le_one hpos]
    exact_mod_cast List.countP_le_length _
  · simp [BasicCorrectnessReport.init, BasicCorrectnessReport.compute, htot]
  · simp [BasicCorrectnessReport.init, BasicCorrectnessReport.compute]
  · intro g
    simp only [BasicCorrectnessReport.init, BasicCorrectnessReport.compute,
      List.countP_map]
    rfl

/-- Witness for the previous theorem at a concrete two-element input. -/
theorem basicCorrectness_percentages_exact_witness :
    ([({ primary_response := { statuscode := 200, headers := "h", body := .bnone, latency := 1 },
         shadow_response := { statuscode := 200, headers := "h", body := .bnone, latency := 1 },
         is_identical := true } : ResponseComparison),
      { primary_response := { statuscode := 200, headers := "h", body := .bnone, latency := 1 },
        shadow_response := { statuscode := 404, headers := "h", body := .bnone, latency := 1 },
        is_identical := false }] ≠ ([] : List ResponseComparison)) ∧
    0 ≤ ((BasicCorrectnessReport.init
      [({ primary_response := { statuscode := 200, headers := "h", body := .bnone, latency := 1 },
          shadow_response := { statuscode := 200, headers := "h", body := .bnone, latency := 1 },
          is_identical := true } : ResponseComparison),
       { primary_response := { statuscode := 200, headers := "h", body := .bnone, latency := 1 },
         shadow_response := { statuscode := 404, headers := "h", body := .bnone, latency := 1 },
         is_identical := false }] []).compute).percent_matching :=
  ⟨by simp, (basicCorrectness_percentages_exact _ [] (by simp)).2.1⟩

/-- C2: for the empty comparison sequence, `compute` succeeds and the
division-by-zero fallback yields `percent_matching = 0` and
`percent_statuses_matching = 0`. -/
theorem basicCorrectness_empty_input (ur : List RequestResponsePair) :
    ((BasicCorrectnessReport.init [] ur).compute).percent_matching = 0 ∧
    ((BasicCorrectnessReport.init [] ur).compute).percent_statuses_matching = 0 ∧
    ((BasicCorrectnessReport.init [] ur).compute).total_comparisons = 0 ∧
    ((BasicCorrectnessReport.init [] ur).compute).computed = true := by
  refine ⟨?_, ?_, ?_, ?_⟩ <;>
    simp [BasicCorrectnessReport.init, BasicCorrectnessReport.compute]


/-- C4: after `PerformanceReport.compute`, a latency value appears in a
side's filtered list iff it occurs among that side's input latencies and
is strictly positive; each filtered list is an order-preserving sublist
of the input latencies; and primary latencies `[10, -1, 0, 30]` filter to
`[10, 30]` with average `20`. -/
theorem performance_latency_filtering :
    (∀ (comps : List ResponseComparison) (ur : List RequestResponsePair)
        (x : ℚ),
      (x ∈ ((PerformanceReport.init comps ur).compute).primary_latencies ↔
        x ∈ comps.map (fun c => c.primary_response.latency) ∧ 0 < x) ∧
      (x ∈ ((PerformanceReport.init comps ur).compute).shadow_latencies ↔
        x ∈ comps.map (fun c => c.shadow_response.latency) ∧ 0 < x)) ∧
    (∀ (comps : List ResponseComparison) (ur : List RequestResponsePair),
      (((PerformanceReport.init comps ur).compute).primary_latencies).Sublist
        (comps.map (fun c => c.primary_response.latency)) ∧
      (((PerformanceReport.init comps ur).compute).shadow_latencies).Sublist
        (comps.map (fun c => c.shadow_response.latency))) ∧
    ((PerformanceReport.init
        [mkComp (mkResp 200 .bnone 10) (mkResp 200 .bnone 1) true,
         mkComp (mkResp 200 .bnone (-1)) (mkResp 200 .bnone 1) true,
         mkComp (mkResp 200 .bnone 0) (mkResp 200 .bnone 1) true,
         mkComp (mkResp 200 .bnone 30) (mkResp 200 .bnone 1) true]
        []).compute).primary_latencies = [10, 30] ∧
    npAverage [10, 30] = some 20 := by
  refine ⟨?_, ?_, ?_, ?_⟩
  · intro comps ur x
    constructor <;>
      simp [PerformanceReport.init, PerformanceReport.compute, List.mem_filter]
  · intro comps ur
    constructor <;>
      exact List.filter_sublist _
  · norm_num [PerformanceReport.init, PerformanceReport.compute, mkComp,
      mkResp, List.filter]
  · norm_num [npAverage]

/-- C10: `compute`, `__str__` and `export`, on both report types, leave
the borrowed comparison sequence and unmatched-request sequence exactly
as they were, in any combination of calls (each operation preserves the
two input fields, so any call sequence does). -/
theorem reports_frame_inputs_unchanged :
    (∀ r : BasicCorrectnessReport,
      r.compute.response_comparisons = r.response_comparisons ∧
      r.compute.uncompared_requests = r.uncompared_requests ∧
      (r.str).1.response_comparisons = r.response_comparisons ∧
      (r.str).1.uncompared_requests = r.uncompared_requests ∧
      (r.export).1.response_comparisons = r.response_comparisons ∧
      (r.export).1.uncompared_requests = r.uncompared_requests) ∧
    (∀ r : PerformanceReport,
      r.compute.response_comparisons = r.response_comparisons ∧
      r.compute.uncompared_requests = r.uncompared_requests ∧
      (r.str).1.response_comparisons = r.response_comparisons ∧
      (r.str).1.uncompared_requests = r.uncompared_requests ∧
      (r.export).1.response_comparisons = r.response_comparisons ∧
      (r.export).1.uncompared_requests = r.uncompared_requests) := by
  constructor
  · intro r
    refine ⟨rfl, rfl, ?_, ?_, ?_, ?_⟩ <;>
      cases hc : r.computed <;>
        simp [BasicCorrectnessReport.str, BasicCorrectnessReport.export,
          BasicCorrectnessReport.compute, hc]
  · intro r
    refine ⟨rfl, rfl, ?_, ?_, ?_, ?_⟩ <;>
      cases hc : r.computed <;>
        simp [PerformanceReport.str, PerformanceReport.export,
          PerformanceReport.compute, hc]

/-- C6: computing twice equals computing once (on both report types), and
from a not-yet-computed state the summary text and the export output are
the same whether or not an explicit `compute` call precedes them, because
`__str__` and `export` trigger `compute` themselves. -/
theorem reports_compute_idempotent_lazy :
    (∀ r : BasicCorrectnessReport, r.compute.compute = r.compute) ∧
    (∀ r : PerformanceReport, r.compute.compute = r.compute) ∧
    (∀ r : BasicCorrectnessReport, r.computed = false →
      (r.str).2 = (r.compute.str).2) ∧
    (∀ r : PerformanceReport, r.computed = false →
      (r.str).2 = (r.compute.str).2) ∧
    (∀ r : BasicCorrectnessReport, r.computed = false →
      (r.export).2 = (r.compute.export).2) ∧
    (∀ r : PerformanceReport, r.computed = false →
      (r.export).2 = (r.compute.export).2) := by
  refine ⟨fun r => rfl, fun r => rfl, ?_, ?_, ?_, ?_⟩ <;>
    (intro r h;
     simp [BasicCorrectnessReport.str, BasicCorrectnessReport.export,
       BasicCorrectnessReport.compute, PerformanceReport.str,
       PerformanceReport.export, PerformanceReport.compute, h])

/-- Witness for the previous theorem at a concrete fresh report. -/
theorem reports_compute_idempotent_lazy_witness :
    ((BasicCorrectnessReport.init [] []).str).2 =
      (((BasicCorrectnessReport.init [] []).compute).str).2 ∧
    ((PerformanceReport.init [] []).str).2 =
      (((PerformanceReport.init [] []).compute).str).2 ∧
    ((BasicCorrectnessReport.init [] []).export).2 =
      (((BasicCorrectnessReport.init [] []).compute).export).2 ∧
    ((PerformanceReport.init [] []).export).2 =
      (((PerformanceReport.init [] []).compute).export).2 :=
  ⟨reports_compute_idempotent_lazy.2.2.1 _ rfl,
   reports_compute_idempotent_lazy.2.2.2.1 _ rfl,
   reports_compute_idempotent_lazy.2.2.2.2.1 _ rfl,
   reports_compute_idempotent_lazy.2.2.2.2.2 _ rfl⟩

/-- C5: the diff section of `BasicCorrectnessReport.export` is exactly
one block per non-skipped comparison, in input order, each preceded by
the 40-character `'='` separator; a comparison is skipped precisely when
`is_identical()` holds or either body is the empty string. -/
theorem export_diff_blocks_order_and_exclusion :
    (∀ comps : List ResponseComparison,
      exportLoop comps =
        (comps.filter (fun c => !skipDiff c)).flatMap
          (fun c => [sep40, "\n", diffText c, "\n"])) ∧
    (∀ c : ResponseComparison,
      skipDiff c = (c.is_identical ||
        c.primary_response.body.isEmptyStr ||
        c.shadow_response.body.isEmptyStr)) ∧
    sep40.length = 40 ∧
    sep40.data.all (fun ch => ch == '=') = true ∧
    (∀ r : BasicCorrectnessReport,
      (r.export).2 =
        ((if r.computed then r else r.compute).strText) :: "\n" ::
          exportLoop r.response_comparisons) := by
  refine ⟨?_, fun c => rfl, by rfl, by rfl, ?_⟩
  · intro comps
    induction comps with
    | nil => simp [exportLoop]
    | cons c rest ih =>
      cases hc : skipDiff c <;>
        simp [exportLoop, hc, ih]
  · intro r
    cases hc : r.computed <;>
      simp [BasicCorrectnessReport.export, BasicCorrectnessReport.compute, hc]

/-- C7: whenever either body of a rendered comparison is a raw string or
absent/null, each side's body section is a single line made of the type
tag and at most the first 80 characters of the body's string form; in
particular a 200-character string form is cut to exactly 80 characters. -/
theorem export_body_truncated_to_80
    (p s : Response)
    (h : (p.body.isStr || s.body.isStr || p.body.isNone || s.body.isNone)
        = true) :
    diffInputLines p s =
      ["Status code: " ++ toString p.statuscode,
       "Headers: " ++ p.headers,
       "Body:" ++ p.body.typeTag ++ " " ++ strTrunc 80 p.body.pyStr] ∧
    (∀ str0 : String, (strTrunc 80 str0).length ≤ 80) ∧
    (∀ str0 : String, str0.length = 200 →
      (strTrunc 80 str0).length = 80 ∧
      strTrunc 80 str0 = String.mk (str0.data.take 80)) := by
  refine ⟨?_, ?_, ?_⟩
  · simp [diffInputLines, h]
  · intro str0
    show (str0.data.take 80).length ≤ 80
    simp [List.length_take]
  · intro str0 h200
    refine ⟨?_, rfl⟩
    show (str0.data.take 80).length = 80
    have : str0.data.length = 200 := h200
    simp [List.length_take, this]

/-- Witness for the previous theorem: a 200-character primary string body
against a structured shadow body. -/
theorem export_body_truncated_to_80_witness :
    diffInputLines
        (mkResp 200 (.bstr (String.mk (List.replicate 200 'a'))) 1)
        (mkResp 200 (.bstructured (.jobj [])) 1) =
      ["Status code: " ++ toString (200 : Int),
       "Headers: " ++ "h",
       "Body:" ++ (Body.bstr (String.mk (List.replicate 200 'a'))).typeTag ++
         " " ++ strTrunc 80 (Body.bstr (String.mk (List.replicate 200 'a'))).pyStr] ∧
    (strTrunc 80 (String.mk (List.replicate 200 'a'))).length = 80 := by
  have h := export_body_truncated_to_80
    (mkResp 200 (.bstr (String.mk (List.replicate 200 'a'))) 1)
    (mkResp 200 (.bstructured (.jobj [])) 1) (by rfl)
  exact ⟨h.1, (h.2.2 (String.mk (List.replicate 200 'a')) (by rfl)).1⟩

/-- C3 (code bug): when one side's filtered latency list is empty, the
NumPy percentile/average calls in `PerformanceReport.__str__` have no
defined numeric result (NumPy raises / produces NaN, modelled as `none`),
so the summary and the export produce no text instead of an explicitly
reported "no data" condition.  Shown at a comparison whose primary
latency is the `0` sentinel. -/
theorem performance_empty_sample_has_no_summary :
    ((PerformanceReport.init
        [mkComp (mkResp 200 .bnone 0) (mkResp 200 .bnone 5) true]
        []).compute).primary_latencies = [] ∧
    ((PerformanceReport.init
        [mkComp (mkResp 200 .bnone 0) (mkResp 200 .bnone 5) true]
        []).str).2 = none ∧
    ((PerformanceReport.init
        [mkComp (mkResp 200 .bnone 0) (mkResp 200 .bnone 5) true]
        []).export).2 = none ∧
    npPercentile [] 50 = none ∧
    npAverage [] = none := by
  refine ⟨?_, ?_, ?_, rfl, rfl⟩ <;>
    simp [PerformanceReport.init, PerformanceReport.compute,
      PerformanceReport.str, PerformanceReport.export, mkComp, mkResp,
      npPercentile, npAverage, List.filter]

/-- C9: the summary percentiles of `PerformanceReport` are NumPy's
linear-interpolation percentiles over the sorted filtered sample: for
`[10, 20, 30, 40, 50]` the 50th percentile is exactly `30` (displayed
as `30.0`), and interpolation (not nearest-rank) is visible on
`[10, 20, 30, 40]`, whose 50th percentile is `25`. -/
theorem performance_percentile_linear_interpolation :
    ((PerformanceReport.init
        [mkComp (mkResp 200 .bnone 10) (mkResp 200 .bnone 10) true,
         mkComp (mkResp 200 .bnone 20) (mkResp 200 .bnone 20) true,
         mkComp (mkResp 200 .bnone 30) (mkResp 200 .bnone 30) true,
         mkComp (mkResp 200 .bnone 40) (mkResp 200 .bnone 40) true,
         mkComp (mkResp 200 .bnone 50) (mkResp 200 .bnone 50) true]
        []).compute).primary_latencies = [10, 20, 30, 40, 50] ∧
    npPercentile [10, 20, 30, 40, 50] 50 = some 30 ∧
    npPercentile [10, 20, 30, 40] 50 = some 25 ∧
    ((PerformanceReport.init
        [mkComp (mkResp 200 .bnone 10) (mkResp 200 .bnone 10) true,
         mkComp (mkResp 200 .bnone 20) (mkResp 200 .bnone 20) true,
         mkComp (mkResp 200 .bnone 30) (mkResp 200 .bnone 30) true,
         mkComp (mkResp 200 .bnone 40) (mkResp 200 .bnone 40) true,
         mkComp (mkResp 200 .bnone 50) (mkResp 200 .bnone 50) true]
        []).str).2 =
      some ("\n            " ++
        perfClusterText "primary" (248/5) 46 30 30 ++
        "\n            " ++
        perfClusterText "shadow" (248/5) 46 30 30) ∧
    qToFixed 1 30 = "30.0" := by
  have hfilt : ((PerformanceReport.init
      [mkComp (mkResp 200 .bnone 10) (mkResp 200 .bnone 10) true,
       mkComp (mkResp 200 .bnone 20) (mkResp 200 .bnone 20) true,
       mkComp (mkResp 200 .bnone 30) (mkResp 200 .bnone 30) true,
       mkComp (mkResp 200 .bnone 40) (mkResp 200 .bnone 40) true,
       mkComp (mkResp 200 .bnone 50) (mkResp 200 .bnone 50) true]
      []).compute).primary_latencies = [10, 20, 30, 40, 50] := by
    norm_num [PerformanceReport.init, PerformanceReport.compute, mkComp,
      mkResp, List.filter]
  have h50 : npPercentile [10, 20, 30, 40, 50] 50 = some 30 := by
    norm_num [npPercentile, List.insertionSort, List.orderedInsert, Int.toNat]
  have h99 : npPercentile [10, 20, 30, 40, 50] 99 = some (248/5) := by
    norm_num [npPercentile, List.insertionSort, List.orderedInsert, Int.toNat]
  have h90 : npPercentile [10, 20, 30, 40, 50] 90 = some 46 := by
    norm_num [npPercentile, List.insertionSort, List.orderedInsert, Int.toNat]
  have havg : npAverage [10, 20, 30, 40, 50] = some 30 := by
    norm_num [npAverage]
  refine ⟨hfilt, h50, ?_, ?_, ?_⟩
  · norm_num [npPercentile, List.insertionSort, List.orderedInsert, Int.toNat]
  · norm_num [PerformanceReport.str, PerformanceReport.init,
      PerformanceReport.compute, mkComp, mkResp, List.filter,
      h50, h99, h90, havg]
  · norm_num [qToFixed, round_eq]
    decide

/-- C8: when both bodies are structured, each side's diff input is the
status-code line, the headers line, a `"Body:"` line, and the structured
body serialized key-sorted and indented, one diff-input line per
serialized line; and structurally equal bodies (equal up to object key
insertion order, `KeyPerm`) serialize to the same line sequence. -/
theorem export_structured_bodies_key_sorted
    (p s : Response) (j1 j2 : JValue)
    (hp : p.body = .bstructured j1) (hs : s.body = .bstructured j2) :
    diffInputLines p s =
      ["Status code: " ++ toString p.statuscode,
       "Headers: " ++ p.headers,
       "Body:"] ++ jsonDumpsLines j1 ∧
    (∀ ja jb : JValue, KeyPerm ja jb → jsonDumpsLines ja = jsonDumpsLines jb) := by
  constructor
  · simp [diffInputLines, hp, hs, Body.isStr, Body.isNone]
  · exact fun ja jb h => jsonDumpsLines_eq_of_keyPerm h

/-- The two-key object `{"b": 1, "a": 2}` is `KeyPerm`-equal to its
key-reordered form `{"a": 2, "b": 1}`. -/
theorem keyPerm_swap_example :
    KeyPerm (.jobj [("b", .jnum 1), ("a", .jnum 2)])
      (.jobj [("a", .jnum 2), ("b", .jnum 1)]) := by
  refine KeyPerm.obj _ _ [("b", JValue.jnum 1), ("a", JValue.jnum 2)]
    (List.Perm.swap ("a", JValue.jnum 2) ("b", JValue.jnum 1) []) rfl ?_ ?_ ?_
  · intro i h1 h2
    rfl
  · intro i h1 h2
    rcases i with _ | _ | i
    · exact KeyPerm.num 1
    · exact KeyPerm.num 2
    · exact absurd h1 (by simp at h1 ⊢)
  · simp [List.pairwise_cons]

/-- Witness for `export_structured_bodies_key_sorted` at two concrete
structured bodies that differ only in key insertion order. -/
theorem export_structured_bodies_key_sorted_witness :
    diffInputLines
        (mkResp 200 (.bstructured (.jobj [("b", .jnum 1), ("a", .jnum 2)])) 1)
        (mkResp 200 (.bstructured (.jobj [("a", .jnum 2), ("b", .jnum 1)])) 1) =
      ["Status code: " ++ toString (200 : Int),
       "Headers: " ++ "h",
       "Body:"] ++ jsonDumpsLines (.jobj [("b", .jnum 1), ("a", .jnum 2)]) ∧
    jsonDumpsLines (.jobj [("b", .jnum 1), ("a", .jnum 2)]) =
      jsonDumpsLines (.jobj [("a", .jnum 2), ("b", .jnum 1)]) := by
  have h := export_structured_bodies_key_sorted
    (mkResp 200 (.bstructured (.jobj [("b", .jnum 1), ("a", .jnum 2)])) 1)
    (mkResp 200 (.bstructured (.jobj [("a", .jnum 2), ("b", .jnum 1)])) 1)
    (.jobj [("b", .jnum 1), ("a", .jnum 2)])
    (.jobj [("a", .jnum 2), ("b", .jnum 1)]) rfl rfl
  exact ⟨h.1, h.2 _ _ keyPerm_swap_example⟩
